import Mathlib

/-!
Shallow embedding of the MediaPipe holistic-tracking DLL export shim
(src/dll/holistic_tracking_dll/HolisticTrackingApi.h and
HolisticTrackingApi.cpp) together with a model, taken from the design
document, of the lifecycle contract of the external detector class
GoogleMediapipeDetect::HolisticTrackingDetect that the shim forwards to.

The shim itself is pure forwarding: each exported C function calls one
method of a single global detector instance and returns its int result.
We embed each method of the external class as a state transformer on an
abstract state type, collect the five methods in an interface record,
and translate each exported function of HolisticTrackingApi.cpp as a
function of that record.  Mutation of the global instance becomes
explicit state passing.  C pointers are modelled as addresses (Nat),
with 0 the null pointer; the C int return type is modelled as Int.
-/

/-- A C pointer (const char star) modelled as an address; 0 is null. -/
abbrev CharPtr : Type := Nat

/-- A C pointer (void star) modelled as an address; 0 is null. -/
abbrev VoidPtr : Type := Nat

/-- A C pointer (int star) modelled as an address; 0 is null. -/
abbrev IntPtr : Type := Nat

/-- Interface of the external class GoogleMediapipeDetect::HolisticTrackingDetect,
as used by HolisticTrackingApi.cpp: five methods, each of which may mutate the
object (state of type σ) and returns a C int.  The implementation of the class
is not part of the supplied sources, so the interface is kept abstract here. -/
structure DetectorIface (σ : Type) where
  InitModel : σ → CharPtr → Bool → Bool → Bool → Bool → Int × σ
  DetectImageDirect : σ → Int → Int → VoidPtr → IntPtr → Bool → Int × σ
  DetectImage : σ → Int → Int → Int → VoidPtr → IntPtr → VoidPtr → Int × σ
  DetectCamera : σ → Bool → Int × σ
  Release : σ → Int × σ

/-- HolisticTrackingApi.cpp: MediapipeHolisticTrackingInit forwards to
m_HolisticTrackingDetect.InitModel with the same five arguments. -/
def MediapipeHolisticTrackingInit {σ : Type} (D : DetectorIface σ) (s : σ)
    (model_path : CharPtr) (is_need_video_outputstream : Bool)
    (is_need_pose_outputstream : Bool) (is_need_hand_outputstream : Bool)
    (is_need_face_outputstream : Bool) : Int × σ :=
  D.InitModel s model_path is_need_video_outputstream is_need_pose_outputstream
    is_need_hand_outputstream is_need_face_outputstream

/-- HolisticTrackingApi.cpp: MediapipeHolisticTrackingDetectFrameDirect forwards
to m_HolisticTrackingDetect.DetectImageDirect with the same five arguments. -/
def MediapipeHolisticTrackingDetectFrameDirect {σ : Type} (D : DetectorIface σ)
    (s : σ) (image_width : Int) (image_height : Int) (image_data : VoidPtr)
    (detect_result : IntPtr) (show_result_image : Bool) : Int × σ :=
  D.DetectImageDirect s image_width image_height image_data detect_result
    show_result_image

/-- HolisticTrackingApi.cpp: MediapipeHolisticTrackingDetectCamera forwards to
m_HolisticTrackingDetect.DetectCamera with the same argument. -/
def MediapipeHolisticTrackingDetectCamera {σ : Type} (D : DetectorIface σ)
    (s : σ) (show_image : Bool) : Int × σ :=
  D.DetectCamera s show_image

/-- HolisticTrackingApi.cpp: MediapipeHolisticTrackingRelease forwards to
m_HolisticTrackingDetect.Release. -/
def MediapipeHolisticTrackingRelease {σ : Type} (D : DetectorIface σ)
    (s : σ) : Int × σ :=
  D.Release s

/-- HolisticTrackingApi.cpp: MediapipeHolisticTrackingDetectFrame forwards to
m_HolisticTrackingDetect.DetectImage with the same six arguments. -/
def MediapipeHolisticTrackingDetectFrame {σ : Type} (D : DetectorIface σ)
    (s : σ) (image_width : Int) (image_height : Int) (ty : Int)
    (image_data : VoidPtr) (detect_result : IntPtr)
    (detect_result_data : VoidPtr) : Int × σ :=
  D.DetectImage s image_width image_height ty image_data detect_result
    detect_result_data

/-- HolisticTrackingApi.h declares default arguments true for the four
output-stream flags of MediapipeHolisticTrackingInit; a C++ call that passes
only the model path is compiled as this call. -/
def MediapipeHolisticTrackingInitDefaults {σ : Type} (D : DetectorIface σ)
    (s : σ) (model_path : CharPtr) : Int × σ :=
  MediapipeHolisticTrackingInit D s model_path true true true true

/-- HolisticTrackingApi.h declares default argument false for show_result_image
of MediapipeHolisticTrackingDetectFrameDirect; a C++ call that omits the flag
is compiled as this call. -/
def MediapipeHolisticTrackingDetectFrameDirectDefaults {σ : Type}
    (D : DetectorIface σ) (s : σ) (image_width : Int) (image_height : Int)
    (image_data : VoidPtr) (detect_result : IntPtr) : Int × σ :=
  MediapipeHolisticTrackingDetectFrameDirect D s image_width image_height
    image_data detect_result false

/-- HolisticTrackingApi.h declares default argument false for show_image of
MediapipeHolisticTrackingDetectCamera; a C++ call that omits the flag is
compiled as this call. -/
def MediapipeHolisticTrackingDetectCameraDefaults {σ : Type}
    (D : DetectorIface σ) (s : σ) : Int × σ :=
  MediapipeHolisticTrackingDetectCamera D s false

/-- One call to one of the five exported functions, with its arguments. -/
inductive ApiCall where
  | init (model_path : CharPtr) (is_need_video_outputstream : Bool)
      (is_need_pose_outputstream : Bool) (is_need_hand_outputstream : Bool)
      (is_need_face_outputstream : Bool)
  | detectFrameDirect (image_width : Int) (image_height : Int)
      (image_data : VoidPtr) (detect_result : IntPtr)
      (show_result_image : Bool)
  | detectFrame (image_width : Int) (image_height : Int) (ty : Int)
      (image_data : VoidPtr) (detect_result : IntPtr)
      (detect_result_data : VoidPtr)
  | detectCamera (show_image : Bool)
  | release
deriving DecidableEq

/-- Whether a call is to MediapipeHolisticTrackingInit. -/
def ApiCall.isInit : ApiCall → Bool
  | .init _ _ _ _ _ => true
  | _ => false

/-- Whether a call is to one of the three detect functions. -/
def ApiCall.isDetect : ApiCall → Bool
  | .detectFrameDirect _ _ _ _ _ => true
  | .detectFrame _ _ _ _ _ _ => true
  | .detectCamera _ => true
  | _ => false

/-- Dispatch of one exported call, exactly as HolisticTrackingApi.cpp does:
each call form invokes the corresponding exported function. -/
def shimCall {σ : Type} (D : DetectorIface σ) (s : σ) : ApiCall → Int × σ
  | .init mp v p h f => MediapipeHolisticTrackingInit D s mp v p h f
  | .detectFrameDirect w ht data res b =>
      MediapipeHolisticTrackingDetectFrameDirect D s w ht data res b
  | .detectFrame w ht ty data res rd =>
      MediapipeHolisticTrackingDetectFrame D s w ht ty data res rd
  | .detectCamera b => MediapipeHolisticTrackingDetectCamera D s b
  | .release => MediapipeHolisticTrackingRelease D s

/-- Step relation of the export surface: one constructor per exported function,
each producing exactly the result and state given by that exported function. -/
inductive ShimStep {σ : Type} (D : DetectorIface σ) (s : σ) :
    ApiCall → Int → σ → Prop where
  | init (mp : CharPtr) (v p h f : Bool) :
      ShimStep D s (.init mp v p h f)
        (MediapipeHolisticTrackingInit D s mp v p h f).1
        (MediapipeHolisticTrackingInit D s mp v p h f).2
  | detectFrameDirect (w ht : Int) (data : VoidPtr) (res : IntPtr) (b : Bool) :
      ShimStep D s (.detectFrameDirect w ht data res b)
        (MediapipeHolisticTrackingDetectFrameDirect D s w ht data res b).1
        (MediapipeHolisticTrackingDetectFrameDirect D s w ht data res b).2
  | detectFrame (w ht ty : Int) (data : VoidPtr) (res : IntPtr) (rd : VoidPtr) :
      ShimStep D s (.detectFrame w ht ty data res rd)
        (MediapipeHolisticTrackingDetectFrame D s w ht ty data res rd).1
        (MediapipeHolisticTrackingDetectFrame D s w ht ty data res rd).2
  | detectCamera (b : Bool) :
      ShimStep D s (.detectCamera b)
        (MediapipeHolisticTrackingDetectCamera D s b).1
        (MediapipeHolisticTrackingDetectCamera D s b).2
  | release :
      ShimStep D s .release
        (MediapipeHolisticTrackingRelease D s).1
        (MediapipeHolisticTrackingRelease D s).2

/-- One recorded invocation of a detector method, with the arguments received. -/
inductive DetectorInvocation where
  | initModel (model_path : CharPtr) (v p h f : Bool)
  | detectImageDirect (image_width : Int) (image_height : Int)
      (image_data : VoidPtr) (detect_result : IntPtr)
      (show_result_image : Bool)
  | detectImage (image_width : Int) (image_height : Int) (ty : Int)
      (image_data : VoidPtr) (detect_result : IntPtr)
      (detect_result_data : VoidPtr)
  | detectCamera (show_image : Bool)
  | release
deriving DecidableEq

/-- A recording instantiation of the detector interface: each method prepends
its invocation, arguments included, to the state and returns the fixed value
ret.  Used to observe exactly what the shim passes through. -/
def spyDetector (ret : Int) : DetectorIface (List DetectorInvocation) where
  InitModel := fun s mp v p h f => (ret, .initModel mp v p h f :: s)
  DetectImageDirect := fun s w ht data res b =>
    (ret, .detectImageDirect w ht data res b :: s)
  DetectImage := fun s w ht ty data res rd =>
    (ret, .detectImage w ht ty data res rd :: s)
  DetectCamera := fun s b => (ret, .detectCamera b :: s)
  Release := fun s => (ret, .release :: s)

/-- Modelled from the spec: lifecycle stage of the external detector instance.
The implementation of HolisticTrackingDetect is not among the supplied sources;
the design document describes its lifecycle as uninitialized, then initialized
via InitModel, then released. -/
inductive LifecycleStage where
  | uninitialized
  | initialized
  | released
deriving DecidableEq

/-- Modelled from the spec: the external detector object, reduced to the
lifecycle stage the design document describes. -/
structure HolisticTrackingDetect where
  stage : LifecycleStage
deriving DecidableEq

/-- Modelled from the spec: outcomes of operations whose failure semantics are
defined entirely inside the external detector (invalid model path, malformed
frame, camera unavailable). -/
structure Env where
  initOk : Bool
  detectOk : Bool
  cameraOk : Bool
deriving DecidableEq

/-- Modelled from the spec: InitModel loads a model file and configures which
output streams are active; on success the detector becomes initialized and the
call returns 1, on external failure it returns 0. -/
def specInitModel (env : Env) (d : HolisticTrackingDetect) (_model_path : CharPtr)
    (_v _p _h _f : Bool) : Int × HolisticTrackingDetect :=
  if env.initOk then (1, { stage := .initialized }) else (0, d)

/-- Modelled from the spec: single-frame detection against a raw pixel buffer;
it fails with 0 unless the detector is initialized, and an external failure also
returns 0; the detector state is not mutated. -/
def specDetectImageDirect (env : Env) (d : HolisticTrackingDetect) (_w _ht : Int)
    (_data : VoidPtr) (_res : IntPtr) (_b : Bool) : Int × HolisticTrackingDetect :=
  ((if d.stage = .initialized then (if env.detectOk then 1 else 0) else 0), d)

/-- Modelled from the spec: single-frame detection carrying a pixel-format tag
and a secondary output payload; it fails with 0 unless the detector is
initialized, and an external failure also returns 0; the state is not mutated. -/
def specDetectImage (env : Env) (d : HolisticTrackingDetect) (_w _ht _ty : Int)
    (_data : VoidPtr) (_res : IntPtr) (_rd : VoidPtr) :
    Int × HolisticTrackingDetect :=
  ((if d.stage = .initialized then (if env.detectOk then 1 else 0) else 0), d)

/-- Modelled from the spec: blocking detection loop driven by a live camera; it
fails with 0 unless the detector is initialized, and an external failure also
returns 0; the detector state is not mutated. -/
def specDetectCamera (env : Env) (d : HolisticTrackingDetect) (_b : Bool) :
    Int × HolisticTrackingDetect :=
  ((if d.stage = .initialized then (if env.cameraOk then 1 else 0) else 0), d)

/-- Modelled from the spec: Release tears the detector down; called on an
initialized detector it returns 1 and moves it to the released stage, called
before initialization or after release it returns failure 0. -/
def specRelease (_env : Env) (d : HolisticTrackingDetect) :
    Int × HolisticTrackingDetect :=
  if d.stage = .initialized then (1, { stage := .released }) else (0, d)

/-- Modelled from the spec: the detector interface instantiated with the
lifecycle model of the external class. -/
def specDetector (env : Env) : DetectorIface HolisticTrackingDetect where
  InitModel := specInitModel env
  DetectImageDirect := specDetectImageDirect env
  DetectImage := specDetectImage env
  DetectCamera := specDetectCamera env
  Release := specRelease env

/-- Process-level shim state: the single global instance m_HolisticTrackingDetect
declared in HolisticTrackingApi.cpp, together with the number of detector
instances constructed so far in the process. -/
structure ProcessState where
  detector : HolisticTrackingDetect
  constructedInstances : Nat
deriving DecidableEq

/-- State at library load: the one global instance has been constructed and is
uninitialized. -/
def loadProcessState : ProcessState :=
  { detector := { stage := .uninitialized }, constructedInstances := 1 }

/-- One exported call at the process level: dispatch through the shim to the
single global detector instance; no exported function constructs a detector. -/
def apiStep (env : Env) (s : ProcessState) (c : ApiCall) : Int × ProcessState :=
  let r := shimCall (specDetector env) s.detector c
  (r.1, { s with detector := r.2 })

/-- Run a sequence of exported calls, collecting the returned ints. -/
def runTrace (env : Env) : ProcessState → List ApiCall → List Int × ProcessState
  | s, [] => ([], s)
  | s, c :: cs =>
    let r := apiStep env s c
    let rest := runTrace env r.2 cs
    (r.1 :: rest.1, rest.2)

/-- An environment in which every external operation succeeds. -/
def envAllOk : Env := { initOk := true, detectOk := true, cameraOk := true }

/-- Helper: no exported call changes the count of constructed detector
instances; the shim constructs nothing after library load. -/
lemma apiStep_constructedInstances (env : Env) (s : ProcessState) (c : ApiCall) :
    (apiStep env s c).2.constructedInstances = s.constructedInstances := rfl

/-- Helper: when the detector is not in the initialized stage, any non-init
exported call returns 0 and leaves the process state unchanged. -/
lemma apiStep_not_initialized_eq (env : Env) (s : ProcessState) (c : ApiCall)
    (hst : s.detector.stage ≠ LifecycleStage.initialized)
    (hc : c.isInit = false) : apiStep env s c = (0, s) := by
  cases c with
  | init mp v p h f => simp [ApiCall.isInit] at hc
  | detectFrameDirect w ht data res b =>
      simp [apiStep, shimCall, MediapipeHolisticTrackingDetectFrameDirect,
        specDetector, specDetectImageDirect, hst]
  | detectFrame w ht ty data res rd =>
      simp [apiStep, shimCall, MediapipeHolisticTrackingDetectFrame,
        specDetector, specDetectImage, hst]
  | detectCamera b =>
      simp [apiStep, shimCall, MediapipeHolisticTrackingDetectCamera,
        specDetector, specDetectCamera, hst]
  | release =>
      simp [apiStep, shimCall, MediapipeHolisticTrackingRelease,
        specDetector, specRelease, hst]

/-- Helper: after a release call the detector is never in the initialized
stage. -/
lemma apiStep_release_not_initialized (env : Env) (s : ProcessState) :
    (apiStep env s ApiCall.release).2.detector.stage ≠
      LifecycleStage.initialized := by
  rcases s with ⟨⟨st⟩, n⟩
  cases st <;>
    simp [apiStep, shimCall, MediapipeHolisticTrackingRelease, specDetector,
      specRelease]

/-- Helper: from a state whose detector is not initialized, a sequence of
non-init calls returns 0 at every step. -/
lemma runTrace_no_init_all_zero (env : Env) (s : ProcessState)
    (cs : List ApiCall) (hst : s.detector.stage ≠ LifecycleStage.initialized)
    (hcs : cs.all (fun c => ! c.isInit) = true) :
    ((runTrace env s cs).1).all (fun r => r == 0) = true := by
  induction cs generalizing s with
  | nil => rfl
  | cons c cs ih =>
    rw [List.all_cons, Bool.and_eq_true] at hcs
    obtain ⟨hc, hrest⟩ := hcs
    have hc0 : c.isInit = false := by
      cases h : c.isInit
      · rfl
      · rw [h] at hc; exact absurd hc (by decide)
    have hstep := apiStep_not_initialized_eq env s c hst hc0
    simp only [runTrace, hstep, List.all_cons, Bool.and_eq_true]
    exact ⟨by decide, ih s hst hrest⟩

/-- Claim C1: each of the five exported functions returns exactly the value
returned by the corresponding method of the detector instance applied to the
same arguments in the same order, for every detector implementation, every
detector state and every argument tuple; the shim adds no validation,
transformation, retry or error classification. -/
theorem exports_are_pure_forwarding {σ : Type} (D : DetectorIface σ) (s : σ)
    (model_path : CharPtr) (v p h f : Bool) (w ht ty : Int) (data : VoidPtr)
    (res : IntPtr) (rd : VoidPtr) (b : Bool) :
    MediapipeHolisticTrackingInit D s model_path v p h f =
        D.InitModel s model_path v p h f ∧
      MediapipeHolisticTrackingDetectFrameDirect D s w ht data res b =
        D.DetectImageDirect s w ht data res b ∧
      MediapipeHolisticTrackingDetectFrame D s w ht ty data res rd =
        D.DetectImage s w ht ty data res rd ∧
      MediapipeHolisticTrackingDetectCamera D s b = D.DetectCamera s b ∧
      MediapipeHolisticTrackingRelease D s = D.Release s :=
  ⟨rfl, rfl, rfl, rfl, rfl⟩

/-- Claim C2: every exported call, with any arguments and in any detector
state, returns exactly 0 or 1; no other value ever crosses the boundary. -/
theorem exported_return_is_binary (env : Env) (s : ProcessState) (c : ApiCall) :
    (apiStep env s c).1 = 0 ∨ (apiStep env s c).1 = 1 := by
  rcases env with ⟨i, dk, ck⟩
  rcases s with ⟨⟨st⟩, n⟩
  cases c <;> cases st <;> cases i <;> cases dk <;> cases ck <;>
    simp [apiStep, shimCall, specDetector, specInitModel,
      specDetectImageDirect, specDetectImage, specDetectCamera, specRelease,
      MediapipeHolisticTrackingInit, MediapipeHolisticTrackingDetectFrameDirect,
      MediapipeHolisticTrackingDetectFrame, MediapipeHolisticTrackingDetectCamera,
      MediapipeHolisticTrackingRelease]

/-- Claim C3: any call to a detect function or to Release made while the
detector is still uninitialized returns failure 0 rather than crashing. -/
theorem before_init_returns_failure (env : Env) (s : ProcessState) (c : ApiCall)
    (hstage : s.detector.stage = LifecycleStage.uninitialized)
    (hc : c.isInit = false) : (apiStep env s c).1 = 0 := by
  have hne : s.detector.stage ≠ LifecycleStage.initialized := by
    rw [hstage]; exact fun h => LifecycleStage.noConfusion h
  rw [apiStep_not_initialized_eq env s c hne hc]

/-- Witness for claim C3 at a concrete input: a camera detect call at library
load returns 0. -/
theorem before_init_returns_failure_witness :
    loadProcessState.detector.stage = LifecycleStage.uninitialized ∧
      (ApiCall.detectCamera false).isInit = false ∧
      (apiStep envAllOk loadProcessState (ApiCall.detectCamera false)).1 = 0 :=
  ⟨rfl, rfl, before_init_returns_failure envAllOk loadProcessState
    (ApiCall.detectCamera false) rfl rfl⟩

/-- Claim C4: once MediapipeHolisticTrackingRelease has returned, every call in
any subsequent sequence of non-init calls returns failure 0; in particular
every subsequent detect call fails. -/
theorem after_release_detects_fail (env env2 : Env) (s : ProcessState)
    (cs : List ApiCall) (hcs : cs.all (fun c => ! c.isInit) = true) :
    ((runTrace env2 (apiStep env s ApiCall.release).2 cs).1).all
      (fun r => r == 0) = true :=
  runTrace_no_init_all_zero env2 _ cs (apiStep_release_not_initialized env s) hcs

/-- Witness for claim C4 at a concrete input: after init and release, the three
detect functions each return 0. -/
theorem after_release_detects_fail_witness :
    ([ApiCall.detectCamera false,
      ApiCall.detectFrameDirect 640 480 0 1 false,
      ApiCall.detectFrame 640 480 0 2 3 5].all (fun c => ! c.isInit) = true) ∧
      ((runTrace envAllOk
          (apiStep envAllOk
            (apiStep envAllOk loadProcessState
              (ApiCall.init 7 true true true true)).2 ApiCall.release).2
          [ApiCall.detectCamera false,
           ApiCall.detectFrameDirect 640 480 0 1 false,
           ApiCall.detectFrame 640 480 0 2 3 5]).1).all
        (fun r => r == 0) = true :=
  ⟨by decide, after_release_detects_fail envAllOk envAllOk
    (apiStep envAllOk loadProcessState (ApiCall.init 7 true true true true)).2
    [ApiCall.detectCamera false,
     ApiCall.detectFrameDirect 640 480 0 1 false,
     ApiCall.detectFrame 640 480 0 2 3 5] (by decide)⟩

/-- Claim C5: there is exactly one detector instance for the whole process:
starting from library load, where the single global instance has been
constructed, no sequence of exported calls, two init calls included, ever
changes the number of constructed instances from 1. -/
theorem single_global_instance (env : Env) (cs : List ApiCall) :
    (runTrace env loadProcessState cs).2.constructedInstances = 1 := by
  suffices h : ∀ s : ProcessState,
      (runTrace env s cs).2.constructedInstances = s.constructedInstances by
    exact h loadProcessState
  induction cs with
  | nil => intro s; rfl
  | cons c cs ih =>
      intro s
      calc (runTrace env s (c :: cs)).2.constructedInstances
          = (runTrace env (apiStep env s c).2 cs).2.constructedInstances := rfl
        _ = (apiStep env s c).2.constructedInstances := ih (apiStep env s c).2
        _ = s.constructedInstances := apiStep_constructedInstances env s c

/-- Claim C6: the three detect operations leave the shim-level state unchanged
in full: the detector instance, its lifecycle stage, and the instance count are
exactly as before the call; only init and release mutate the state. -/
theorem detect_leaves_state_unchanged (env : Env) (s : ProcessState)
    (c : ApiCall) (hc : c.isDetect = true) : (apiStep env s c).2 = s := by
  cases c with
  | init mp v p h f => simp [ApiCall.isDetect] at hc
  | release => simp [ApiCall.isDetect] at hc
  | detectFrameDirect w ht data res b => rfl
  | detectFrame w ht ty data res rd => rfl
  | detectCamera b => rfl

/-- Witness for claim C6 at a concrete input: a frame detect call at library
load leaves the process state exactly as it was. -/
theorem detect_leaves_state_unchanged_witness :
    (ApiCall.detectFrameDirect 640 480 0 1 false).isDetect = true ∧
      (apiStep envAllOk loadProcessState
        (ApiCall.detectFrameDirect 640 480 0 1 false)).2 = loadProcessState :=
  ⟨rfl, detect_leaves_state_unchanged envAllOk loadProcessState
    (ApiCall.detectFrameDirect 640 480 0 1 false) rfl⟩

/-- Claim C7: MediapipeHolisticTrackingInit delivers each of the four
output-stream flags unchanged and in its declared position to InitModel of the
detector: a recording detector receives exactly the invocation
initModel model_path v p h f, and the exported function returns exactly the
value the detector chose. -/
theorem init_forwards_flags_in_position (ret : Int)
    (trace : List DetectorInvocation) (model_path : CharPtr) (v p h f : Bool) :
    MediapipeHolisticTrackingInit (spyDetector ret) trace model_path v p h f =
      (ret, DetectorInvocation.initModel model_path v p h f :: trace) :=
  rfl

/-- Claim C8: for callers using the declared default arguments of the header,
init with only a model path equals init with all four flags true, and the two
detect functions with a show flag default equal the calls with that flag
false. -/
theorem default_arguments_agree {σ : Type} (D : DetectorIface σ) (s : σ)
    (model_path : CharPtr) (w ht : Int) (data : VoidPtr) (res : IntPtr) :
    MediapipeHolisticTrackingInitDefaults D s model_path =
        MediapipeHolisticTrackingInit D s model_path true true true true ∧
      MediapipeHolisticTrackingDetectFrameDirectDefaults D s w ht data res =
        MediapipeHolisticTrackingDetectFrameDirect D s w ht data res false ∧
      MediapipeHolisticTrackingDetectCameraDefaults D s =
        MediapipeHolisticTrackingDetectCamera D s false :=
  ⟨rfl, rfl, rfl⟩

/-- Claim C9: the shim never dereferences or inspects a pointer argument: for
every input, the null address 0 and non-positive dimensions included, a
recording detector receives the model path, image data, result and result data
pointers and the dimensions exactly as passed, and the value returned across
the boundary is exactly the value the detector chose, so no early return or
crash originates in the shim itself. -/
theorem pointers_reach_detector_unchanged (ret : Int)
    (trace : List DetectorInvocation) (model_path : CharPtr) (v p h f : Bool)
    (w ht ty : Int) (data : VoidPtr) (res : IntPtr) (rd : VoidPtr) (b : Bool) :
    MediapipeHolisticTrackingInit (spyDetector ret) trace model_path v p h f =
        (ret, DetectorInvocation.initModel model_path v p h f :: trace) ∧
      MediapipeHolisticTrackingDetectFrameDirect (spyDetector ret) trace
          w ht data res b =
        (ret, DetectorInvocation.detectImageDirect w ht data res b :: trace) ∧
      MediapipeHolisticTrackingDetectFrame (spyDetector ret) trace
          w ht ty data res rd =
        (ret, DetectorInvocation.detectImage w ht ty data res rd :: trace) :=
  ⟨rfl, rfl, rfl⟩

/-- Claim C10: the shim dispatch is deterministic: from an identical detector
state and an identical exported call with identical arguments, any two steps of
the export surface produce the same returned int and the same resulting
state. -/
theorem shim_step_deterministic {σ : Type} (D : DetectorIface σ) (s : σ)
    (c : ApiCall) (r₁ r₂ : Int) (s₁ s₂ : σ) (h₁ : ShimStep D s c r₁ s₁)
    (h₂ : ShimStep D s c r₂ s₂) : r₁ = r₂ ∧ s₁ = s₂ := by
  cases h₁ <;> cases h₂ <;> exact ⟨rfl, rfl⟩

/-- Witness for claim C10 at a concrete input: two release steps on the
recording detector from the empty trace agree. -/
theorem shim_step_deterministic_witness :
    (1 : Int) = 1 ∧
      ([DetectorInvocation.release] : List DetectorInvocation) =
        [DetectorInvocation.release] :=
  shim_step_deterministic (spyDetector 1) [] ApiCall.release 1 1
    [DetectorInvocation.release] [DetectorInvocation.release]
    (ShimStep.release) (ShimStep.release)
